import Mathlib

/-!
Verification of the sios Policy Decision Point against its specification.

The development shallowly embeds the policy-engine code of the repository:
the remote-delegating `Enforcer` of
`external_service_policy_files/glance/policy.py`, the local oslo-backed
`Enforcer` and `ImageTarget` of `sios/policy/glance/glance.py`, the PDP
controller of `sios/api/v1/pdp.py`, and the proxy `Helper` of
`sios/domain/proxy.py`.  Python values flowing through these functions are
modelled by a small JSON value type with Python truthiness; Python
exceptions by an explicit error type carried in `Except`.
-/

namespace Sios

/-- Python exceptions that can escape the embedded functions.
`attributeError` arises from `self.LOG` lookups: the `Enforcer` class in
`external_service_policy_files/glance/policy.py` never defines a `LOG`
attribute, so every `self.LOG.xxx(...)` call raises `AttributeError`. -/
inductive PyErr where
  | forbidden
  | serviceError
  | attributeError
  | keyError
  | valueError
  | assertionError
  | typeError
  | nameError
  deriving Repr, DecidableEq

/-- JSON values, as produced by `jsonutils.loads` and passed around as
Python objects. -/
inductive Json where
  | null
  | bool (b : Bool)
  | num (n : Int)
  | str (s : String)
  | arr (xs : List Json)
  | obj (kvs : List (String × Json))
  deriving Repr

/-- Python truthiness of a JSON value (`if x:` / `assert x`). -/
def Json.truthy : Json → Bool
  | .null => false
  | .bool b => b
  | .num n => n != 0
  | .str s => s != ""
  | .arr xs => !xs.isEmpty
  | .obj kvs => !kvs.isEmpty

/-- Python equality test `x == False`: true exactly for the boolean
`False` and the number `0`. -/
def Json.eqFalse : Json → Bool
  | .bool false => true
  | .num n => n == 0
  | _ => false

/-- Python subscript `j[k]` on a parsed JSON value: `KeyError` when the
key is absent from a dict, `TypeError` when `j` is not a dict. -/
def Json.get : Json → String → Except PyErr Json
  | .obj kvs, k =>
      match kvs.lookup k with
      | some v => .ok v
      | none => .error .keyError
  | _, _ => .error .typeError

/-- The request context consumed by the enforcers: `auth_tok`, `roles`,
`user`, `tenant` (from `sios/context.py` / the glance request context). -/
structure ReqContext where
  auth_tok : Option String
  roles : List String
  user : String
  tenant : String

end Sios

namespace Sios.PolicyRemote

/-!
Embedding of the remote-delegating `Enforcer` of
`external_service_policy_files/glance/policy.py`.
-/

open Sios

/-- Attribute lookup `self.LOG` on the remote `Enforcer`.  The class never
assigns a `LOG` attribute (the module-level `LOG` is not reachable through
`self`), so the lookup raises `AttributeError` (policy.py:158,162,220,223,262). -/
def selfLOG : Except PyErr Unit := .error .attributeError

/-- Decision handling of `Enforcer.enforce` (policy.py:292-307), given the
JSON decision `data` parsed from the remote PDP response: raise `Forbidden`
when `data == False`, otherwise return `data`. -/
def enforce (data : Json) : Except PyErr Json :=
  if data.eqFalse then .error .forbidden else .ok data

/-- `Enforcer.check` (policy.py:277-290), parameterised by the outcome
`remote` of the `_json_request` to `/v1/pdp/check_glance`.  Returns the
decision together with the number of remote HTTP calls performed. -/
def check (remote : Except PyErr Json) (ctx : ReqContext) :
    Except PyErr (Json × Nat) :=
  match ctx.auth_tok with
  | none => .ok (.bool false, 0)
  | some _ =>
      match remote with
      | .ok d => .ok (d, 1)
      | .error e => .error e

end Sios.PolicyRemote

namespace Sios.PolicyRemote

open Sios

/-- Observable side effects of `_http_request` (policy.py:199-229): an
attempted `conn.request`, a `conn.close()` from the `finally` block, and a
`time.sleep(2.0 ** retry / 2)` recorded in half-seconds
(1, 2, 4 half-seconds = the documented 0.5s, 1s, 2s). -/
inductive HttpEvent where
  | request
  | close
  | sleep (halfSeconds : Nat)
  deriving Repr, DecidableEq

/-- The retry bound constant `RETRIES` of `_http_request` (policy.py:209). -/
def RETRIES : Nat := 3

/-- One `while True` iteration of `_http_request` (policy.py:212-227),
parameterised by the attempt oracle: `attempts i = some (resp, body)` when
the i-th `conn.request`/`getresponse`/`read` succeeds, `none` when it
raises a connection-level exception.  The `except` handler runs
`self.LOG.error` (when `retry == RETRIES`) or `self.LOG.warn` (otherwise)
before the `raise ServiceError` / `time.sleep`; both lookups raise
`AttributeError` (see `selfLOG`), which propagates after the `finally`
block closes the connection, so the loop never reaches a second
iteration, never sleeps, and never raises `ServiceError` (which is in any
case an undefined name in the module). -/
def httpRequestLoop (attempts : Nat → Option (Nat × String)) (retry : Nat)
    (tr : List HttpEvent) : List HttpEvent × Except PyErr (Nat × String) :=
  match attempts retry with
  | some rb => (tr ++ [.request, .close], .ok rb)
  | none =>
      if retry == RETRIES then
        (tr ++ [.request, .close], .error .attributeError)
      else
        (tr ++ [.request, .close], .error .attributeError)

/-- `Enforcer._http_request` (policy.py:199-229): returns the trace of
observable events and the outcome. -/
def httpRequest (attempts : Nat → Option (Nat × String)) :
    List HttpEvent × Except PyErr (Nat × String) :=
  httpRequestLoop attempts 0 []

/-- The constructed HTTP request handed to `conn.request(method, path,
**kwargs)` by `_json_request`. -/
structure HttpReq where
  method : String
  path : String
  headers : List (String × String)
  body : Option String
  deriving Repr, DecidableEq

/-- The base headers set by `_json_request` (policy.py:243-248). -/
def baseHeaders : List (String × String) :=
  [("Content-type", "application/json"), ("Accept", "application/json")]

/-- Python `dict.update`: keys of `base` keep their position with values
overridden by `upd`; keys only in `upd` are appended in order. -/
def dictUpdate (base upd : List (String × String)) :
    List (String × String) :=
  base.map (fun kv =>
    match upd.lookup kv.1 with
    | some v => (kv.1, v)
    | none => kv) ++
  upd.filter (fun kv => (base.lookup kv.1).isNone)

/-- `Enforcer._json_request` (policy.py:231-265), parameterised by
`dumps` (`jsonutils.dumps`), `parse` (`jsonutils.loads`, `none` meaning it
raises `ValueError`), the configured `auth_admin_prefix` value
`adminRoot`, and the attempt oracle of the underlying `_http_request`.
Returns the constructed request and the outcome.  When the response body
does not parse as JSON, the `except ValueError` handler evaluates
`self.LOG.debug` which raises `AttributeError` (see `selfLOG`) before
`data = \x7b\x7d` can be assigned. -/
def jsonRequest (dumps : Json → String) (parse : String → Option Json)
    (adminRoot : String) (attempts : Nat → Option (Nat × String))
    (method path : String) (body : Option Json)
    (additionalHeaders : List (String × String)) :
    HttpReq × Except PyErr (Nat × Json) :=
  let headers := dictUpdate baseHeaders additionalHeaders
  let bodyStr : Option String :=
    match body with
    | some b => if b.truthy then some (dumps b) else none
    | none => none
  let fullPath := adminRoot ++ path
  let result :=
    match httpRequest attempts with
    | (_, .error e) => .error e
    | (_, .ok (resp, respBody)) =>
        match parse respBody with
        | some data => .ok (resp, data)
        | none => .error .attributeError
  (⟨method, fullPath, headers, bodyStr⟩, result)

/-- `Enforcer._request_admin_token` (policy.py:124-164), parameterised by
the parsed JSON response `data` of the `POST /v2.0/tokens` call, by
`parseIso` (`timeutils.parse_isotime`, `none` meaning it raises
`ValueError`) and `normalizeTime` (`timeutils.normalize_time`).  The
`except (AssertionError, KeyError)` and `except (ValueError)` handlers
both evaluate `self.LOG.warn`, which raises `AttributeError` (see
`selfLOG`) before the intended `raise ServiceError` (itself an undefined
name) is reached. -/
def requestAdminToken (parseIso : Json → Option Nat)
    (normalizeTime : Nat → Nat) (data : Json) :
    Except PyErr (Json × Nat) :=
  let tryBody : Except PyErr (Json × Nat) := do
    let access ← data.get "access"
    let tokenObj ← access.get "token"
    let token ← tokenObj.get "id"
    let expiry ← tokenObj.get "expires"
    if !token.truthy then throw .assertionError
    else if !expiry.truthy then throw .assertionError
    else
      match parseIso expiry with
      | none => throw .valueError
      | some dt => return (token, normalizeTime dt)
  match tryBody with
  | .ok r => .ok r
  | .error .assertionError => .error .attributeError
  | .error .keyError => .error .attributeError
  | .error .valueError => .error .attributeError
  | .error e => .error e

/-- The admin-token cache of the `Enforcer` (policy.py:108,112):
`admin_token` (initially `None`) and `admin_token_expiry`. -/
structure TokState where
  admin_token : Json
  admin_token_expiry : Option Nat
  deriving Repr

/-- `Enforcer.get_admin_token` (policy.py:166-185), parameterised by the
parse/normalize functions and the JSON response `data` a token request
would receive.  Returns the token, the resulting cache state, and the
number of token requests issued (calls to `_request_admin_token`).
When `admin_token_expiry` is set (truthy), policy.py:178 evaluates
`will_expire_soon(self.admin_token_expiry)` — an undefined name in the
module, never defined or imported — so the call raises `NameError`
before anything else happens; only with `admin_token_expiry` unset does
the function reach the `if not self.admin_token` fetch-or-return. -/
def getAdminToken (parseIso : Json → Option Nat)
    (normalizeTime : Nat → Nat) (data : Json) (s : TokState) :
    Except PyErr (Json × TokState × Nat) :=
  match s.admin_token_expiry with
  | some _ => .error .nameError
  | none =>
      if !s.admin_token.truthy then
        match requestAdminToken parseIso normalizeTime data with
        | .error e => .error e
        | .ok (t, exp) => .ok (t, ⟨t, some exp⟩, 1)
      else
        .ok (s.admin_token, ⟨s.admin_token, none⟩, 0)

end Sios.PolicyRemote

namespace Sios.PolicyLocal

/-!
Embedding of the local `Enforcer` of `sios/policy/glance/glance.py`,
which subclasses `oslo_policy.policy.Enforcer`.
-/

open Sios

/-- Credentials built by the local enforcer from the request context
(glance.py:69-73, 87-91). -/
structure Credentials where
  roles : List String
  user : String
  tenant : String
  deriving Repr, DecidableEq

/-- `credentials` dict construction shared by `enforce` and `check`. -/
def credentialsOf (ctx : ReqContext) : Credentials :=
  ⟨ctx.roles, ctx.user, ctx.tenant⟩

/-- Models the oslo_policy library `Enforcer.enforce` contract invoked at
glance.py:74 and glance.py:92: `result` is the boolean outcome of rule
evaluation; with `do_raise` set, a false result raises the supplied
exception (`Forbidden`), otherwise the result is returned. -/
def osloEnforce (result : Bool) (doRaise : Bool) : Except PyErr Bool :=
  if doRaise && !result then .error .forbidden else .ok result

/-- `Enforcer.enforce` (glance.py:60-77): delegates to the oslo enforce
with `do_raise=True` and `exc=Forbidden`, given the rule-evaluation
outcome `result` for (action, target, credentials). -/
def enforce (result : Bool) : Except PyErr Bool :=
  osloEnforce result true

/-- `Enforcer.check` (glance.py:79-92): delegates to the oslo enforce with
the default `do_raise=False`. -/
def check (result : Bool) : Except PyErr Bool :=
  osloEnforce result false

end Sios.PolicyLocal

namespace Sios.PolicyLocal

open Sios

/-- The object targetted by an `ImageTarget` (glance.py:381-413): its
direct Python attributes, and its `extra_properties` attribute (a dict)
when present.  `none` covers both an absent attribute and one set to
`None`, as conflated by `getattr(self.target, 'extra_properties', None)`. -/
structure TargetObj where
  attrs : List (String × Json)
  extra_properties : Option (List (String × Json))

/-- `ImageTarget.key_transforms` (glance.py:409-413). -/
def keyTransforms (key : String) : String :=
  if key = "id" then "image_id" else key

/-- `ImageTarget.__getitem__` (glance.py:391-407): rename the key, return
the direct attribute when present; otherwise, when the target has an
`extra_properties` dict, subscript it (`extra_properties[key]`, raising
`KeyError` when the key is absent); only when `extra_properties` is
absent is `None` returned. -/
def imageTargetGet (t : TargetObj) (key : String) : Except PyErr Json :=
  let k := keyTransforms key
  match t.attrs.lookup k with
  | some v => .ok v
  | none =>
      match t.extra_properties with
      | some ep =>
          match ep.lookup k with
          | some v => .ok v
          | none => .error .keyError
      | none => .ok .null

/-- Parsed policy checks, as produced by the oslo_policy `_parse_check`
applied by `policy.Rules.from_dict` at glance.py:35-39. -/
inductive Check where
  | trueCheck
  | falseCheck
  | roleCheck (m : String)
  | ruleCheck (n : String)
  | genericCheck (kind m : String)
  deriving Repr, DecidableEq

/-- Split a character list at its first colon. -/
def splitColonChars : List Char → Option (List Char × List Char)
  | [] => none
  | c :: cs =>
      if c = ':' then some ([], cs)
      else
        match splitColonChars cs with
        | none => none
        | some (k, m) => some (c :: k, m)

/-- Python `s.split(':', 1)`: split at the first colon, `none` when no
colon occurs (the `ValueError` case). -/
def splitColon (s : String) : Option (String × String) :=
  match splitColonChars s.toList with
  | none => none
  | some (k, m) => some (⟨k⟩, ⟨m⟩)

/-- The oslo_policy rule-string parser used by `Rules.from_dict` for the
built-in defaults: `@` permits all, `!` denies all, `role:m` is a role
check, `rule:n` a rule reference, other `kind:m` a generic check, and an
unsplittable string a deny-all. -/
def parseCheck (s : String) : Check :=
  if s = "@" then .trueCheck
  else if s = "!" then .falseCheck
  else
    match splitColon s with
    | none => .falseCheck
    | some (k, m) =>
        if k = "role" then .roleCheck m
        else if k = "rule" then .ruleCheck m
        else .genericCheck k m

/-- `policy.Rules.from_dict`: parse each rule string. -/
def rulesFromDict (d : List (String × String)) : List (String × Check) :=
  d.map (fun kv => (kv.1, parseCheck kv.2))

/-- `DEFAULT_RULES` (glance.py:35-39). -/
def DEFAULT_RULES : List (String × Check) :=
  rulesFromDict
    [("context_is_admin", "role:admin"),
     ("default", "@"),
     ("manage_image_cache", "role:admin")]

/-- The keyword arguments `Enforcer.__init__` (glance.py:49-54) passes to
the oslo `policy.Enforcer` constructor: the `rules`/`use_conf` pair plus
the constant `overwrite=False`.  With `use_conf=False` the oslo enforcer
never reads a policy file nor touches its file cache. -/
structure InitKwargs where
  rules : Option (List (String × Check))
  use_conf : Bool
  overwrite : Bool
  deriving DecidableEq

/-- `Enforcer.__init__` (glance.py:49-54), parameterised by the result of
`CONF.find_file(CONF.oslo_policy.policy_file)`. -/
def enforcerInit (foundPolicyFile : Option String) : InitKwargs :=
  match foundPolicyFile with
  | some _ => ⟨none, true, false⟩
  | none => ⟨some DEFAULT_RULES, false, false⟩

end Sios.PolicyLocal

namespace Sios.Pdp

open Sios

/-- `Controller.enforce_glance` (pdp.py:67-74), parameterised by the
outcome `r` of `self.policy_glance.enforce(...)`: `except
exception.Forbidden` turns a `Forbidden` into the return value `False`;
any other outcome is passed through. -/
def enforce_glance (r : Except PyErr Bool) : Except PyErr Bool :=
  match r with
  | .error .forbidden => .ok false
  | other => other

end Sios.Pdp

namespace Sios.DomainProxy

open Sios

/-- Python objects flowing through `sios/domain/proxy.py`: `None`, plain
(unproxied) objects, and proxy instances, which store the object they
wrap in their `base` attribute (as every proxy class of the repository
does). -/
inductive PyObj where
  | none
  | plain (n : Nat)
  | wrapped (base : PyObj)
  deriving Repr, DecidableEq

/-- `Helper.proxy` (proxy.py:35-38); `hasClass` is whether the helper was
constructed with a `proxy_class`. -/
def proxy (hasClass : Bool) (obj : PyObj) : PyObj :=
  if obj == .none || !hasClass then obj else .wrapped obj

/-- Python attribute access `obj.base`: `AttributeError` on objects
without a `base` attribute (in particular on `None`). -/
def getattrBase : PyObj → Except PyErr PyObj
  | .wrapped b => .ok b
  | _ => .error .attributeError

/-- `Helper.unproxy` (proxy.py:40-43). -/
def unproxy (hasClass : Bool) (obj : PyObj) : Except PyErr PyObj :=
  if !hasClass then .ok obj else getattrBase obj

end Sios.DomainProxy

namespace Sios

/-- A sample `timeutils.parse_isotime` used by concrete witnesses: parses
only the literal timestamp of `tokenResponseSample`. -/
def parseIsoSample : Json → Option Nat
  | .str s => if s = "2026-01-01T00:00:00Z" then some 100 else none
  | _ => none

/-- A well-formed identity-service token response used by concrete
witnesses. -/
def tokenResponseSample : Json :=
  .obj [("access", .obj [("token", .obj
    [("id", .str "tok"), ("expires", .str "2026-01-01T00:00:00Z")])])]

end Sios

namespace Sios

/-- C1: the remote enforcer raises `Forbidden` exactly on a deny decision
(`data == False`) and returns the (non-false) decision on a permit; the
local enforcer raises `Forbidden` on a false rule outcome and returns
`True` on a true outcome. -/
theorem C1_enforce_deny_raises_permit_returns :
    (∀ d : Json,
      (d.eqFalse = true → PolicyRemote.enforce d = .error .forbidden) ∧
      (d.eqFalse = false → PolicyRemote.enforce d = .ok d)) ∧
    (∀ b : Bool,
      (b = false → PolicyLocal.enforce b = .error .forbidden) ∧
      (b = true → PolicyLocal.enforce b = .ok true)) := by
  constructor
  · intro d
    constructor
    · intro h
      simp [PolicyRemote.enforce, h]
    · intro h
      simp [PolicyRemote.enforce, h]
  · intro b
    constructor
    · intro h
      subst h
      rfl
    · intro h
      subst h
      rfl

/-- Witness for C1 at concrete decisions: deny `false` raises, permit
`true` returns. -/
theorem C1_witness :
    PolicyRemote.enforce (Json.bool false) = .error .forbidden ∧
    PolicyRemote.enforce (Json.bool true) = .ok (Json.bool true) ∧
    PolicyLocal.enforce false = .error .forbidden ∧
    PolicyLocal.enforce true = .ok true :=
  ⟨(C1_enforce_deny_raises_permit_returns.1 (Json.bool false)).1 rfl,
   (C1_enforce_deny_raises_permit_returns.1 (Json.bool true)).2 rfl,
   (C1_enforce_deny_raises_permit_returns.2 false).1 rfl,
   (C1_enforce_deny_raises_permit_returns.2 true).2 rfl⟩

/-- C2: when `context.auth_tok` is `None`, the remote-delegating `check`
returns `False` and performs no remote HTTP call, whatever the remote
would have answered. -/
theorem C2_check_no_token_denies_without_remote_call
    (remote : Except PyErr Json) (ctx : ReqContext)
    (h : ctx.auth_tok = none) :
    PolicyRemote.check remote ctx = .ok (Json.bool false, 0) := by
  unfold PolicyRemote.check
  rw [h]

/-- Witness for C2 at a concrete tokenless context. -/
theorem C2_witness :
    PolicyRemote.check (.ok (Json.bool true)) ⟨none, [], "u", "t"⟩ =
      .ok (Json.bool false, 0) :=
  C2_check_no_token_denies_without_remote_call (.ok (Json.bool true))
    ⟨none, [], "u", "t"⟩ rfl

/-- C3: evaluation of `_http_request` at its failing inputs.  With an
attempt oracle that fails twice then succeeds (the claim's retry
scenario), and with one that always fails, the function performs exactly
one request, closes the connection, and raises `AttributeError` — it
never sleeps, never retries, and never raises `ServiceError`, because the
`except` handler's `self.LOG` lookup itself raises. -/
theorem C3_http_request_log_lookup_preempts_retry :
    PolicyRemote.httpRequest
        (fun i => if i < 2 then none else some (200, "ok")) =
      ([.request, .close], .error .attributeError) ∧
    PolicyRemote.httpRequest (fun _ => none) =
      ([.request, .close], .error .attributeError) :=
  ⟨rfl, rfl⟩

/-- C5: evaluation of `_request_admin_token` on malformed identity
responses — missing fields, an empty token id, and an unparsable expiry
timestamp — raises `AttributeError` (from the handler's `self.LOG`
lookup), not `ServiceError`. -/
theorem C5_request_admin_token_malformed_raises_attribute_error :
    PolicyRemote.requestAdminToken (fun _ => none) id (.obj []) =
      .error .attributeError ∧
    PolicyRemote.requestAdminToken (fun _ => none) id
        (.obj [("access", .obj [("token", .obj
          [("id", .str ""), ("expires", .str "e")])])]) =
      .error .attributeError ∧
    PolicyRemote.requestAdminToken (fun _ => none) id
        (.obj [("access", .obj [("token", .obj
          [("id", .str "t"), ("expires", .str "not-a-date")])])]) =
      .error .attributeError :=
  ⟨rfl, rfl, rfl⟩

/-- C7: evaluation of `_json_request` at a response whose body is not
JSON.  The request is built as specified — JSON-serialized body,
Content-type/Accept headers with the caller's headers merged over them,
admin-prefixed path — but the best-effort response parse raises
`AttributeError` (from `self.LOG.debug`) instead of yielding an empty
mapping. -/
theorem C7_json_request_nonjson_body_raises :
    PolicyRemote.jsonRequest (fun _ => "SERIALIZED") (fun _ => none)
        "/admin" (fun _ => some (200, "plaintext error")) "POST"
        "/v1/pdp/check_glance" (some (.bool true))
        [("X-Auth-Token", "tok")] =
      (⟨"POST", "/admin/v1/pdp/check_glance",
        [("Content-type", "application/json"),
         ("Accept", "application/json"), ("X-Auth-Token", "tok")],
        some "SERIALIZED"⟩,
       .error .attributeError) :=
  rfl

/-- C4: evaluation of `get_admin_token` at the claim's own scenario.  The
first call from an empty cache issues one token request and caches the
(token, normalized expiry) pair; but the second call — and every call in
a state where a cached token and expiry exist — raises `NameError`,
because `will_expire_soon` (policy.py:178) is an undefined name in the
module.  The cached-token-return path never executes; the claimed
return-from-cache with no network request is unreachable. -/
theorem C4_get_admin_token_cached_state_raises_name_error :
    PolicyRemote.getAdminToken parseIsoSample id tokenResponseSample
      ⟨.null, none⟩ = .ok (.str "tok", ⟨.str "tok", some 100⟩, 1) ∧
    PolicyRemote.getAdminToken parseIsoSample id tokenResponseSample
      ⟨.str "tok", some 100⟩ = .error .nameError ∧
    PolicyRemote.getAdminToken parseIsoSample id tokenResponseSample
      ⟨.str "cached", some 5⟩ = .error .nameError :=
  ⟨rfl, rfl, rfl⟩

/-- C6 counterexample: a target with an empty `extra_properties` dict and
a key absent everywhere makes the lookup raise `KeyError`, refuting the
claim that an absent key evaluates to `None` and never raises. -/
theorem C6_counterexample :
    PolicyLocal.imageTargetGet ⟨[], some []⟩ "foo" = .error .keyError :=
  rfl

/-- C6 (amended): the `ImageTarget` lookup renames `id` to `image_id`,
returns the direct attribute when present, otherwise subscripts the
target's `extra_properties` dict — raising `KeyError` when that dict is
present but lacks the key; only when the target has no `extra_properties`
does an absent key evaluate to `None`. -/
theorem C6_image_target_lookup :
    (PolicyLocal.keyTransforms "id" = "image_id") ∧
    (∀ key, key ≠ "id" → PolicyLocal.keyTransforms key = key) ∧
    (∀ (t : PolicyLocal.TargetObj) (key : String) (v : Json),
       t.attrs.lookup (PolicyLocal.keyTransforms key) = some v →
       PolicyLocal.imageTargetGet t key = .ok v) ∧
    (∀ (t : PolicyLocal.TargetObj) (key : String)
       (ep : List (String × Json)) (v : Json),
       t.attrs.lookup (PolicyLocal.keyTransforms key) = none →
       t.extra_properties = some ep →
       ep.lookup (PolicyLocal.keyTransforms key) = some v →
       PolicyLocal.imageTargetGet t key = .ok v) ∧
    (∀ (t : PolicyLocal.TargetObj) (key : String)
       (ep : List (String × Json)),
       t.attrs.lookup (PolicyLocal.keyTransforms key) = none →
       t.extra_properties = some ep →
       ep.lookup (PolicyLocal.keyTransforms key) = none →
       PolicyLocal.imageTargetGet t key = .error .keyError) ∧
    (∀ (t : PolicyLocal.TargetObj) (key : String),
       t.attrs.lookup (PolicyLocal.keyTransforms key) = none →
       t.extra_properties = none →
       PolicyLocal.imageTargetGet t key = .ok .null) := by
  refine ⟨rfl, ?_, ?_, ?_, ?_, ?_⟩
  · intro key h
    simp [PolicyLocal.keyTransforms, h]
  · intro t key v h
    simp [PolicyLocal.imageTargetGet, h]
  · intro t key ep v h1 h2 h3
    simp [PolicyLocal.imageTargetGet, h1, h2, h3]
  · intro t key ep h1 h2 h3
    simp [PolicyLocal.imageTargetGet, h1, h2, h3]
  · intro t key h1 h2
    simp [PolicyLocal.imageTargetGet, h1, h2]

/-- Witness for C6 at concrete targets and keys: the `id` rename into a
direct attribute, an `extra_properties` hit, the `KeyError` on an
`extra_properties` miss, and the `None` when `extra_properties` is
absent. -/
theorem C6_witness :
    PolicyLocal.keyTransforms "name" = "name" ∧
    PolicyLocal.imageTargetGet ⟨[("image_id", .str "42")], none⟩ "id" =
      .ok (.str "42") ∧
    PolicyLocal.imageTargetGet ⟨[], some [("color", .str "red")]⟩
      "color" = .ok (.str "red") ∧
    PolicyLocal.imageTargetGet ⟨[], some []⟩ "size" =
      .error .keyError ∧
    PolicyLocal.imageTargetGet ⟨[], none⟩ "owner" = .ok .null :=
  ⟨C6_image_target_lookup.2.1 "name" (by decide),
   C6_image_target_lookup.2.2.1 ⟨[("image_id", .str "42")], none⟩ "id"
     (.str "42") rfl,
   C6_image_target_lookup.2.2.2.1 ⟨[], some [("color", .str "red")]⟩
     "color" [("color", .str "red")] (.str "red") rfl rfl rfl,
   C6_image_target_lookup.2.2.2.2.1 ⟨[], some []⟩ "size" [] rfl rfl rfl,
   C6_image_target_lookup.2.2.2.2.2 ⟨[], none⟩ "owner" rfl rfl⟩

/-- C8: when `CONF.find_file` locates no policy file, the local enforcer
is constructed with `rules=DEFAULT_RULES` and `use_conf=False` (so the
oslo enforcer reads no file and touches no cache), and `DEFAULT_RULES`
maps `context_is_admin` to the admin role check, `default` to allow-all,
and the service-specific `manage_image_cache` to the admin role check. -/
theorem C8_default_rules_when_no_policy_file
    (found : Option String) (h : found = none) :
    PolicyLocal.enforcerInit found =
      ⟨some PolicyLocal.DEFAULT_RULES, false, false⟩ ∧
    PolicyLocal.DEFAULT_RULES.lookup "context_is_admin" =
      some (.roleCheck "admin") ∧
    PolicyLocal.DEFAULT_RULES.lookup "default" = some .trueCheck ∧
    PolicyLocal.DEFAULT_RULES.lookup "manage_image_cache" =
      some (.roleCheck "admin") := by
  subst h
  exact ⟨rfl, by decide, by decide, by decide⟩

/-- Witness for C8 at the concrete absent-file result. -/
theorem C8_witness :
    PolicyLocal.enforcerInit none =
      ⟨some PolicyLocal.DEFAULT_RULES, false, false⟩ ∧
    PolicyLocal.DEFAULT_RULES.lookup "context_is_admin" =
      some (.roleCheck "admin") ∧
    PolicyLocal.DEFAULT_RULES.lookup "default" = some .trueCheck ∧
    PolicyLocal.DEFAULT_RULES.lookup "manage_image_cache" =
      some (.roleCheck "admin") :=
  C8_default_rules_when_no_policy_file none rfl

/-- C9: the PDP controller's `enforce_glance` never lets `Forbidden`
escape: a `Forbidden` from the underlying enforce becomes the return
value `False`, and composed with the local enforcer it returns the
boolean decision as a value for every rule outcome. -/
theorem C9_enforce_glance_never_propagates_forbidden :
    (∀ r : Except PyErr Bool,
      Pdp.enforce_glance r ≠ .error .forbidden ∧
      (r = .error .forbidden → Pdp.enforce_glance r = .ok false)) ∧
    (∀ b : Bool, Pdp.enforce_glance (PolicyLocal.enforce b) = .ok b) := by
  constructor
  · intro r
    constructor
    · cases r with
      | ok v => simp [Pdp.enforce_glance]
      | error e => cases e <;> simp [Pdp.enforce_glance]
    · intro h
      subst h
      rfl
  · intro b
    cases b <;> rfl

/-- Witness for C9 at the concrete `Forbidden` outcome and at a denying
rule evaluation. -/
theorem C9_witness :
    Pdp.enforce_glance (.error .forbidden) = .ok false ∧
    Pdp.enforce_glance (PolicyLocal.enforce false) = .ok false :=
  ⟨(C9_enforce_glance_never_propagates_forbidden.1
      (.error .forbidden)).2 rfl,
   C9_enforce_glance_never_propagates_forbidden.2 false⟩

/-- C10 counterexample: with a proxy class configured,
`unproxy (proxy None)` raises `AttributeError` (`None` has no `base`
attribute), refuting the round-trip identity over every object. -/
theorem C10_counterexample :
    DomainProxy.unproxy true (DomainProxy.proxy true .none) =
      .error .attributeError :=
  rfl

/-- C10 (amended): with a proxy class, `unproxy (proxy x)` is `x` for
every non-`None` object `x`, and `proxy None` is `None`; with no proxy
class, both `proxy` and `unproxy` are the identity on every object. -/
theorem C10_proxy_roundtrip :
    (∀ x : DomainProxy.PyObj, x ≠ .none →
      DomainProxy.unproxy true (DomainProxy.proxy true x) = .ok x) ∧
    DomainProxy.proxy true .none = .none ∧
    (∀ x : DomainProxy.PyObj,
      DomainProxy.proxy false x = x ∧
      DomainProxy.unproxy false x = .ok x) := by
  refine ⟨?_, rfl, ?_⟩
  · intro x hx
    cases x with
    | none => exact absurd rfl hx
    | plain n => rfl
    | wrapped b => rfl
  · intro x
    exact ⟨by simp [DomainProxy.proxy], rfl⟩

/-- Witness for C10 at a concrete non-`None` object. -/
theorem C10_witness :
    DomainProxy.unproxy true (DomainProxy.proxy true (.plain 7)) =
      .ok (.plain 7) ∧
    DomainProxy.proxy false (.plain 7) = .plain 7 ∧
    DomainProxy.unproxy false (.plain 7) = .ok (.plain 7) :=
  ⟨C10_proxy_roundtrip.1 (.plain 7) (by decide),
   (C10_proxy_roundtrip.2.2 (.plain 7)).1,
   (C10_proxy_roundtrip.2.2 (.plain 7)).2⟩

end Sios
